import Mathlib

/-!
Verification development for the full-stack video-quality analyzer
(`webrtc/video/full_stack.cc`).  The C++ analyzer is shallowly embedded:
pure arithmetic on `uint32_t` rtp timestamps becomes `Nat` arithmetic
modulo `2^32`, the capture-lock protected state (`frames_`, `send_times_`,
`recv_times_`, `first_send_frame_`, `rtp_timestamp_delta_`,
`last_rendered_frame_`, and the comparison queue fed by
`AddFrameComparison`) becomes an explicit record, and the worker-pool
operations (`PopComparison`, `FrameRecorded`, `FrameProcessed`,
`CompareFrames`, the enqueue in `AddFrameComparison`) become a labelled
transition system.  Fatal assertions (`assert`, `EXPECT_EQ` followed by
`assert`) and the undefined behaviour of `std::deque::front()` on an empty
deque are modelled as `Option.none`.
-/

namespace FullStack

/-- `2^32`, the modulus of `uint32_t` arithmetic. -/
def u32Mod : Nat := 4294967296

/-- `uint32_t` subtraction `a - b` (wrapping). -/
def sub32 (a b : Nat) : Nat := (a + (u32Mod - b % u32Mod)) % u32Mod

/-- Truncation of an `int64_t` value into `uint32_t`, as happens when
`copy.set_timestamp(copy.ntp_time_ms() * 90)` narrows the product. -/
def u32ofInt (x : Int) : Nat := (x % (4294967296 : Int)).toNat

/-- Modelled from the spec: a `VideoFrame` (spec section 3) is an opaque
image carrying an rtp timestamp (90 kHz media clock, `uint32_t`) and a
capture ntp time in ms; a sentinel "zero" frame (`IsZeroSize()`) denotes
"unset".  The pixel payload is irrelevant to every claim and is omitted;
`VideoFrame::Reset()` produces the zero frame.  (The VideoFrame class
itself is external to the sampled sources.) -/
structure VideoFrame where
  timestamp : Nat
  ntp_time_ms : Int
  isZeroSize : Bool
deriving DecidableEq

/-- The sentinel zero frame (`IsZeroSize()` true); also the result of
`VideoFrame::Reset()`. -/
def zeroFrame : VideoFrame := ⟨0, 0, true⟩

/-- Association-list model of `std::map<uint32_t, int64_t>`: lookup. -/
def mapFind : List (Nat × Int) → Nat → Option Int
  | [], _ => none
  | (k, v) :: rest, key => if k = key then some v else mapFind rest key

/-- `std::map::operator[]` read: a missing key default-constructs the
mapped value, so an absent entry reads as `0`. -/
def mapLookupD (m : List (Nat × Int)) (key : Nat) : Int :=
  match mapFind m key with
  | some v => v
  | none => 0

/-- `std::map::erase(key)`. -/
def mapErase : List (Nat × Int) → Nat → List (Nat × Int)
  | [], _ => []
  | (k, v) :: rest, key =>
      if k = key then mapErase rest key else (k, v) :: mapErase rest key

/-- `map[key] = v` (insert or overwrite). -/
def mapInsert (m : List (Nat × Int)) (key : Nat) (v : Int) : List (Nat × Int) :=
  (key, v) :: mapErase m key

/-- `VideoAnalyzer::FrameComparison`: reference frame, rendered frame,
dropped flag and the three wall-clock timestamps. -/
structure FrameComparison where
  reference : VideoFrame
  render : VideoFrame
  dropped : Bool
  send_time_ms : Int
  recv_time_ms : Int
  render_time_ms : Int
deriving DecidableEq

/-- The analyzer state guarded by the capture lock (`crit_`), together
with the contents of the comparison queue that `AddFrameComparison`
appends to (appends only; the worker-side consumption is modelled
separately by `PoolState`). -/
structure CaptureState where
  frames : List VideoFrame
  last_rendered_frame : VideoFrame
  send_times : List (Nat × Int)
  recv_times : List (Nat × Int)
  first_send_frame : VideoFrame
  rtp_timestamp_delta : Nat
  comparisons : List FrameComparison
deriving DecidableEq

/-- The state of a freshly constructed `VideoAnalyzer`. -/
def initCapture : CaptureState :=
  { frames := []
    last_rendered_frame := zeroFrame
    send_times := []
    recv_times := []
    first_send_frame := zeroFrame
    rtp_timestamp_delta := 0
    comparisons := [] }

/-- `VideoAnalyzer::AddFrameComparison`: reads (with `operator[]`
defaulting) and erases the send/recv time entries keyed by the reference
frame's rtp timestamp, then appends the comparison to the queue. -/
def addFrameComparison (s : CaptureState) (reference render : VideoFrame)
    (dropped : Bool) (render_time_ms : Int) : CaptureState :=
  { s with
    send_times := mapErase s.send_times reference.timestamp
    recv_times := mapErase s.recv_times reference.timestamp
    comparisons := s.comparisons ++
      [⟨reference, render, dropped,
        mapLookupD s.send_times reference.timestamp,
        mapLookupD s.recv_times reference.timestamp,
        render_time_ms⟩] }

/-- `VideoAnalyzer::IncomingCapturedFrame`: copy the frame, restamp it
with `ntp_time_ms * 90`, seed `first_send_frame_` when it is the zero
frame and the delta is still `0`, and push the copy onto `frames_`. -/
def incomingCapturedFrame (s : CaptureState) (f : VideoFrame) : CaptureState :=
  let copy : VideoFrame := { f with timestamp := u32ofInt (f.ntp_time_ms * 90) }
  { s with
    first_send_frame :=
      if s.first_send_frame.isZeroSize = true ∧ s.rtp_timestamp_delta = 0 then
        copy
      else s.first_send_frame
    frames := s.frames ++ [copy] }

/-- `VideoAnalyzer::SendRtp` (state effect): when the delta is `0` it is
(re)computed as `header.timestamp - first_send_frame_.timestamp()` and
`first_send_frame_` is reset; then the send time is recorded under the
normalized key `header.timestamp - rtp_timestamp_delta_`. -/
def sendRtp (s : CaptureState) (header_ts : Nat) (now : Int) : CaptureState :=
  let s1 :=
    if s.rtp_timestamp_delta = 0 then
      { s with
        rtp_timestamp_delta := sub32 header_ts s.first_send_frame.timestamp
        first_send_frame := zeroFrame }
    else s
  { s1 with send_times := mapInsert s1.send_times (sub32 header_ts s1.rtp_timestamp_delta) now }

/-- `VideoAnalyzer::DeliverPacket` (state effect): record the receive
time under the normalized key. -/
def deliverPacket (s : CaptureState) (header_ts : Nat) (now : Int) : CaptureState :=
  { s with recv_times := mapInsert s.recv_times (sub32 header_ts s.rtp_timestamp_delta) now }

/-- The drain loop of `VideoAnalyzer::RenderFrame`: while the front of
`frames_` has rtp timestamp strictly below `send_ts`, promote it as a
dropped comparison paired with `last_rendered_frame_` and pop it.
Returns the updated state (its `frames` field is left stale; the caller
reinstates it) together with the undrained remainder of the queue. -/
def renderDrain (send_ts : Nat) (lrf : VideoFrame) (render_time_ms : Int) :
    List VideoFrame → CaptureState → CaptureState × List VideoFrame
  | [], s => (s, [])
  | fr :: rest, s =>
      if fr.timestamp < send_ts then
        renderDrain send_ts lrf render_time_ms rest
          (addFrameComparison s fr lrf true render_time_ms)
      else (s, fr :: rest)

/-- `VideoAnalyzer::RenderFrame`: compute
`send_ts = video_frame.timestamp() - rtp_timestamp_delta_` (uint32),
drain strictly smaller capture-queue entries as dropped comparisons, then
pop the front, which must exist, be non-zero-size, and carry exactly
`send_ts` (a fatal assertion otherwise, modelled as `none`); enqueue the
non-dropped comparison and update `last_rendered_frame_`. -/
def renderFrame (s : CaptureState) (video_frame : VideoFrame)
    (render_time_ms : Int) : Option CaptureState :=
  let send_ts := sub32 video_frame.timestamp s.rtp_timestamp_delta
  let dr := renderDrain send_ts s.last_rendered_frame render_time_ms s.frames s
  match dr.2 with
  | [] => none
  | reference :: rest =>
      if reference.isZeroSize = true then none
      else if reference.timestamp = send_ts then
        some { addFrameComparison dr.1 reference video_frame false render_time_ms with
               frames := rest
               last_rendered_frame := video_frame }
      else none

/-- Statistics and counters guarded by the comparison lock, as touched by
`VideoAnalyzer::PerformFrameComparison`.  A `Statistics` instance is
modelled by its list of accepted samples; the PSNR/SSIM doubles are
abstracted as integer-valued pure results passed in by the caller. -/
structure WorkerStats where
  psnr_samples : List Int
  ssim_samples : List Int
  sender_time_samples : List Int
  receiver_time_samples : List Int
  end_to_end_samples : List Int
  rendered_delta_samples : List Int
  dropped_frames : Nat
  last_render_time : Int
deriving DecidableEq

/-- Freshly constructed statistics: every accumulator empty. -/
def initWorkerStats : WorkerStats := ⟨[], [], [], [], [], [], 0, 0⟩

/-- `VideoAnalyzer::PerformFrameComparison` (lock-held part): always add
the PSNR and SSIM samples; for a dropped comparison only bump
`dropped_frames_`; otherwise add the rendered-delta (when
`last_render_time_ != 0`), sender-time, receiver-time and end-to-end
samples. -/
def performFrameComparison (psnr ssim : Int) (c : FrameComparison)
    (w : WorkerStats) : WorkerStats :=
  let w1 := { w with
    psnr_samples := w.psnr_samples ++ [psnr]
    ssim_samples := w.ssim_samples ++ [ssim] }
  if c.dropped = true then
    { w1 with dropped_frames := w1.dropped_frames + 1 }
  else
    let w2 :=
      if w1.last_render_time ≠ 0 then
        { w1 with rendered_delta_samples :=
            w1.rendered_delta_samples ++ [c.render_time_ms - w1.last_render_time] }
      else w1
    { w2 with
      last_render_time := c.render_time_ms
      sender_time_samples :=
        w2.sender_time_samples ++ [c.send_time_ms - c.reference.ntp_time_ms]
      receiver_time_samples :=
        w2.receiver_time_samples ++ [c.render_time_ms - c.recv_time_ms]
      end_to_end_samples :=
        w2.end_to_end_samples ++ [c.render_time_ms - c.reference.ntp_time_ms] }

/-- The thread-pool sizing computed in the `VideoAnalyzer` constructor:
`if (num_cores <= kMinCoresLeft) num_cores = 1; else { num_cores -=
kMinCoresLeft; num_cores = min(num_cores, kMaxComparisonThreads); }` with
`kMinCoresLeft = 4` and `kMaxComparisonThreads = 8`. -/
def numComparisonThreads (num_cores : Nat) : Nat :=
  if num_cores ≤ 4 then 1 else min (num_cores - 4) 8

/-- The worker-count formula as the spec words it:
`max(1, min(8, cpu_cores − 4))`, over the integers. -/
def specWorkerCount (num_cores : Nat) : Int :=
  max 1 (min 8 ((num_cores : Int) - 4))

/-- The comparison-lock protected worker-pool state.  A queued or
in-flight comparison is represented by its `dropped` flag (the only field
the counters depend on); `inflight` holds comparisons popped by some
worker but not yet counted by `FrameProcessed`; `nondropped_processed` is
the (ghost) tally of processed non-dropped comparisons; `done` records
whether the done event has been signalled by a worker. -/
structure PoolState where
  comparisons : List Bool
  inflight : List Bool
  frames_recorded : Nat
  frames_processed : Nat
  dropped_frames : Nat
  nondropped_processed : Nat
  done : Bool
deriving DecidableEq

/-- Pool state at analyzer construction. -/
def initPool : PoolState := ⟨[], [], 0, 0, 0, 0, false⟩

/-- One interleaved step of the worker-pool operations
(`AddFrameComparison`'s enqueue, `PopComparison` + `FrameRecorded`, and
the `PerformFrameComparison` + `FrameProcessed` + conditional
`done_->Set()` of `CompareFrames`), each executed under the comparison
lock as in the source. -/
inductive PoolStep (total : Nat) : PoolState → PoolState → Prop
  /-- `AddFrameComparison`: unconditionally append to `comparisons_`. -/
  | enqueue (s : PoolState) (d : Bool) :
      PoolStep total s { s with comparisons := s.comparisons ++ [d] }
  /-- `PopComparison`: refuses when the queue is empty or
  `AllFramesRecorded()`; otherwise pops the front and `FrameRecorded()`
  increments `frames_recorded_`. -/
  | pop (s : PoolState) (d : Bool) (rest : List Bool)
      (hq : s.comparisons = d :: rest) (hr : s.frames_recorded ≠ total) :
      PoolStep total s
        { s with
          comparisons := rest
          inflight := d :: s.inflight
          frames_recorded := s.frames_recorded + 1 }
  /-- `PerformFrameComparison` on a popped comparison followed by
  `FrameProcessed()`; when the incremented counter reaches
  `frames_to_process_` the worker signals the done event. -/
  | process (s : PoolState) (d : Bool) (l1 l2 : List Bool)
      (hf : s.inflight = l1 ++ d :: l2) :
      PoolStep total s
        { s with
          inflight := l1 ++ l2
          frames_processed := s.frames_processed + 1
          dropped_frames := s.dropped_frames + (if d then 1 else 0)
          nondropped_processed := s.nondropped_processed + (if d then 0 else 1)
          done := s.done || decide (s.frames_processed + 1 = total) }

/-- States reachable from the initial pool state by worker-pool steps. -/
def PoolReachable (total : Nat) (s : PoolState) : Prop :=
  Relation.ReflTransGen (PoolStep total) initPool s

/-- The inductive invariant of the worker pool. -/
def PoolInv (total : Nat) (s : PoolState) : Prop :=
  s.frames_recorded ≤ total ∧
  s.frames_processed + s.inflight.length = s.frames_recorded ∧
  s.dropped_frames + s.nondropped_processed = s.frames_processed ∧
  (s.done = true ↔ 0 < total ∧ s.frames_processed = total)

/-- The decision a worker takes in one pass of `CompareFrames`. -/
inductive WorkerAction
  | exit
  | wait
  | popped (d : Bool)
deriving DecidableEq

/-- One pass of `VideoAnalyzer::CompareFrames`, up to the point where the
popped comparison (if any) starts being processed: exit immediately when
`AllFramesRecorded()`; otherwise attempt `PopComparison`, which fails on
an empty queue (the worker then waits on the comparison-available
event). -/
def compareFrames (total : Nat) (s : PoolState) : WorkerAction × PoolState :=
  if s.frames_recorded = total then (.exit, s)
  else
    match s.comparisons with
    | [] => (.wait, s)
    | d :: rest =>
        (.popped d,
         { s with
           comparisons := rest
           inflight := d :: s.inflight
           frames_recorded := s.frames_recorded + 1 })

/-- What `VideoAnalyzer::Wait` observes on one iteration: either the done
event fired, or the wait timed out and the loop body reads
`frames_processed_`. -/
inductive WaitObs
  | signaled
  | timeout (p : Int)
deriving DecidableEq

/-- Outcome of the `Wait` loop over a finite observation trace. -/
inductive WaitOutcome
  /-- `done_->Wait` returned `kEventSignaled`; the loop exits normally. -/
  | success
  /-- `ASSERT_GT(frames_processed, last_frames_processed)` failed:
  "Analyzer stalled while waiting for test to finish." -/
  | stalled
  /-- The observation trace ran out with the loop still iterating. -/
  | running
deriving DecidableEq

/-- The `Wait` loop: `last` is `last_frames_processed` (initially `-1`);
a timeout tick reads `frames_processed_`, skips the progress check while
`last == -1`, and otherwise fails unless the reading strictly
increased. -/
def waitLoop : Int → List WaitObs → WaitOutcome
  | _, [] => .running
  | _, .signaled :: _ => .success
  | last, .timeout p :: rest =>
      if last = -1 then waitLoop p rest
      else if last < p then waitLoop p rest
      else .stalled

/-- An RTP/RTCP packet as the analyzer sees it: the parsed header
timestamp (the only field the analyzer reads) plus the raw payload
identity. -/
structure Packet where
  header_timestamp : Nat
  payload : List Nat
deriving DecidableEq

/-- The whole analyzer state, for the frame conditions of `SendRtcp`. -/
structure AnalyzerState where
  capture : CaptureState
  pool : PoolState
  stats : WorkerStats
deriving DecidableEq

/-- `VideoAnalyzer::SendRtcp`: `return transport_->SendRtcp(packet,
length);` — the packet goes to the transport unmodified and no analyzer
state is touched. -/
def sendRtcp (transport : Packet → Bool) (s : AnalyzerState) (packet : Packet) :
    AnalyzerState × Bool :=
  (s, transport packet)

/-! Concrete states used to instantiate the theorems below. -/

/-- A capture state with two queued reference frames and a known delta. -/
def c1State : CaptureState :=
  { initCapture with
    frames := [⟨10, 1, false⟩, ⟨12, 2, false⟩]
    last_rendered_frame := ⟨99, 0, false⟩
    rtp_timestamp_delta := 2 }

/-- A rendered frame whose send timestamp is `14 - 2 = 12`. -/
def c1Rendered : VideoFrame := ⟨14, 5, false⟩

/-- The state `RenderFrame` produces from `c1State` and `c1Rendered`:
the ts-10 frame is promoted as dropped, the ts-12 frame is paired. -/
def c1Result : CaptureState :=
  { initCapture with
    frames := []
    last_rendered_frame := c1Rendered
    rtp_timestamp_delta := 2
    comparisons :=
      [⟨⟨10, 1, false⟩, ⟨99, 0, false⟩, true, 0, 0, 50⟩,
       ⟨⟨12, 2, false⟩, c1Rendered, false, 0, 0, 50⟩] }

/-- First captured frame: ntp 10 ms, so media timestamp `900`. -/
def c2FrameA : VideoFrame := ⟨0, 10, false⟩

/-- Second captured frame: ntp 20 ms, so media timestamp `1800`. -/
def c2FrameB : VideoFrame := ⟨0, 20, false⟩

/-- State after capturing `c2FrameA` and sending the first packet with
rtp timestamp `900`: the computed delta is `900 - 900 = 0`, the unset
sentinel. -/
def c2AfterFirstSend : CaptureState :=
  sendRtp (incomingCapturedFrame initCapture c2FrameA) 900 1000

/-- State after then capturing `c2FrameB` (which re-seeds
`first_send_frame_`) and sending a packet with rtp timestamp `2000`: the
delta is recomputed to `2000 - 1800 = 200`. -/
def c2AfterSecondSend : CaptureState :=
  sendRtp (incomingCapturedFrame c2AfterFirstSend c2FrameB) 2000 1500

/-- A reference frame whose send/recv entries are absent. -/
def c3Ref : VideoFrame := ⟨5, 3, false⟩

/-- The rendered counterpart of `c3Ref`. -/
def c3Rnd : VideoFrame := ⟨7, 9, false⟩

/-- The comparison `AddFrameComparison` builds for `c3Ref` when both time
maps are missing the key: `operator[]` defaults both times to `0`. -/
def c3Cmp : FrameComparison := ⟨c3Ref, c3Rnd, false, 0, 0, 7⟩

/-- A pool state (reachable with `total = 1`) in which all frames are
recorded while the comparison queue still holds one item. -/
def c7State : PoolState := ⟨[false], [], 1, 1, 0, 1, true⟩

/-- The terminal pool state of a one-frame run. -/
def c6State : PoolState := ⟨[], [], 1, 1, 0, 1, true⟩

/-! Helper lemmas. -/

/-- A missing key reads as the default-constructed value `0`. -/
theorem mapLookupD_of_find_none {m : List (Nat × Int)} {key : Nat}
    (h : mapFind m key = none) : mapLookupD m key = 0 := by
  simp [mapLookupD, h]

/-- Characterization of the `RenderFrame` drain loop: it appends one
dropped comparison per strictly-smaller front element, each paired with
`last_rendered_frame_`, consuming exactly those elements, and touches
neither `frames` nor `last_rendered_frame` nor the delta of the state it
threads. -/
theorem renderDrain_spec (send_ts : Nat) (lrf : VideoFrame) (t : Int)
    (l : List VideoFrame) (s : CaptureState) :
    ∃ cs : List FrameComparison,
      (renderDrain send_ts lrf t l s).1.comparisons = s.comparisons ++ cs ∧
      l = cs.map (fun c => c.reference) ++ (renderDrain send_ts lrf t l s).2 ∧
      (∀ c ∈ cs, c.dropped = true ∧ c.render = lrf ∧
        c.reference.timestamp < send_ts) ∧
      (renderDrain send_ts lrf t l s).1.frames = s.frames ∧
      (renderDrain send_ts lrf t l s).1.last_rendered_frame = s.last_rendered_frame ∧
      (renderDrain send_ts lrf t l s).1.rtp_timestamp_delta = s.rtp_timestamp_delta := by
  induction l generalizing s with
  | nil => exact ⟨[], by simp [renderDrain]⟩
  | cons fr rest ih =>
      by_cases hlt : fr.timestamp < send_ts
      · simp only [renderDrain, if_pos hlt]
        obtain ⟨cs, h1, h2, h3, h4, h5, h6⟩ := ih (addFrameComparison s fr lrf true t)
        refine ⟨⟨fr, lrf, true, mapLookupD s.send_times fr.timestamp,
                  mapLookupD s.recv_times fr.timestamp, t⟩ :: cs, ?_, ?_, ?_, ?_, ?_, ?_⟩
        · rw [h1]; simp [addFrameComparison]
        · simpa using congrArg (List.cons fr) h2
        · intro c hc
          rcases List.mem_cons.mp hc with rfl | hc
          · exact ⟨rfl, rfl, hlt⟩
          · exact h3 c hc
        · rw [h4]; rfl
        · rw [h5]; rfl
        · rw [h6]; rfl
      · simp only [renderDrain, if_neg hlt]
        refine ⟨[], ?_, ?_, ?_, ?_, ?_, ?_⟩ <;> simp

/-- The pool invariant holds initially. -/
theorem poolInv_init (total : Nat) : PoolInv total initPool := by
  refine ⟨Nat.zero_le _, rfl, rfl, ?_⟩
  simp only [initPool]
  constructor
  · intro h; cases h
  · rintro ⟨h1, h2⟩; omega

/-- Every worker-pool step preserves the pool invariant. -/
theorem poolInv_step {total : Nat} {s s' : PoolState} (hs : PoolInv total s)
    (h : PoolStep total s s') : PoolInv total s' := by
  obtain ⟨h1, h2, h3, h4⟩ := hs
  cases h with
  | enqueue d => exact ⟨h1, h2, h3, h4⟩
  | pop d rest hq hr =>
      refine ⟨by dsimp only; omega, ?_, h3, h4⟩
      dsimp only [List.length_cons]
      omega
  | process d l1 l2 hf =>
      have hlen : s.inflight.length = l1.length + l2.length + 1 := by
        rw [hf]; simp; omega
      refine ⟨h1, ?_, ?_, ?_⟩
      · dsimp only; simp only [List.length_append]; omega
      · dsimp only; rcases d <;> simp <;> omega
      · dsimp only
        constructor
        · intro hd
          simp only [Bool.or_eq_true, decide_eq_true_eq] at hd
          rcases hd with hdone | hdec
          · exact absurd (h4.mp hdone).2 (by omega)
          · omega
        · rintro ⟨hp, he⟩
          simp [he]

/-- The pool invariant holds in every reachable state. -/
theorem poolInv_reachable {total : Nat} {s : PoolState}
    (h : PoolReachable total s) : PoolInv total s := by
  induction h with
  | refl => exact poolInv_init total
  | tail hab hbc ih => exact poolInv_step ih hbc

/-! Claim theorems. -/

/-- C4: in every reachable worker-pool state, `frames_recorded` never
exceeds `frames_to_process` and `frames_processed` never exceeds
`frames_recorded`; across every step both counters are nondecreasing and
stay capped at `frames_to_process` (so each becomes equal to it at most
once and then stays there), and a step signals the done event exactly
when it makes `frames_processed` become equal to `frames_to_process`. -/
theorem pool_counters_invariant (total : Nat) (s : PoolState)
    (h : PoolReachable total s) :
    (s.frames_recorded ≤ total ∧ s.frames_processed ≤ s.frames_recorded) ∧
    (∀ s', PoolStep total s s' →
      s.frames_recorded ≤ s'.frames_recorded ∧ s'.frames_recorded ≤ total ∧
      s.frames_processed ≤ s'.frames_processed ∧ s'.frames_processed ≤ total ∧
      ((s'.done = true ∧ s.done = false) ↔
        (s.frames_processed < total ∧ s'.frames_processed = total))) := by
  obtain ⟨h1, h2, h3, h4⟩ := poolInv_reachable h
  refine ⟨⟨h1, by omega⟩, ?_⟩
  intro s' hstep
  cases hstep with
  | enqueue d =>
      refine ⟨le_rfl, h1, le_rfl, by dsimp only; omega, ?_⟩
      dsimp only
      constructor
      · rintro ⟨ha, hb⟩; rw [ha] at hb; cases hb
      · rintro ⟨ha, hb⟩; omega
  | pop d rest hq hr =>
      refine ⟨by dsimp only; omega, by dsimp only; omega, le_rfl,
        by dsimp only; omega, ?_⟩
      dsimp only
      constructor
      · rintro ⟨ha, hb⟩; rw [ha] at hb; cases hb
      · rintro ⟨ha, hb⟩; omega
  | process d l1 l2 hf =>
      have hlen : s.inflight.length = l1.length + l2.length + 1 := by
        rw [hf]; simp; omega
      refine ⟨le_rfl, h1, by dsimp only; omega, by dsimp only; omega, ?_⟩
      dsimp only
      constructor
      · rintro ⟨ha, hb⟩
        rw [hb, Bool.false_or] at ha
        have := of_decide_eq_true ha
        omega
      · rintro ⟨ha, hb⟩
        have hsdone : s.done = false := by
          rcases hsd : s.done
          · rfl
          · exact absurd (h4.mp hsd).2 (by omega)
        refine ⟨?_, hsdone⟩
        rw [hsdone, Bool.false_or]
        exact decide_eq_true hb

/-- Witness for C4: instantiated at the initial pool state of a
one-frame run. -/
theorem pool_counters_invariant_witness :
    ((initPool.frames_recorded ≤ 1 ∧
        initPool.frames_processed ≤ initPool.frames_recorded) ∧
    (∀ s', PoolStep 1 initPool s' →
      initPool.frames_recorded ≤ s'.frames_recorded ∧ s'.frames_recorded ≤ 1 ∧
      initPool.frames_processed ≤ s'.frames_processed ∧ s'.frames_processed ≤ 1 ∧
      ((s'.done = true ∧ initPool.done = false) ↔
        (initPool.frames_processed < 1 ∧ s'.frames_processed = 1)))) :=
  pool_counters_invariant 1 initPool Relation.ReflTransGen.refl

/-- C6: at termination of any run --- a reachable pool state with
`frames_processed = frames_to_process` --- the dropped tally plus the
processed non-dropped tally equals `frames_to_process`: every processed
comparison bumped exactly one of the two. -/
theorem dropped_plus_nondropped_eq_total (total : Nat) (s : PoolState)
    (h : PoolReachable total s) (hterm : s.frames_processed = total) :
    s.dropped_frames + s.nondropped_processed = total := by
  obtain ⟨-, -, h3, -⟩ := poolInv_reachable h
  omega

/-- Witness for C6: the terminal state of a completed one-frame run. -/
theorem dropped_plus_nondropped_eq_total_witness :
    c6State.dropped_frames + c6State.nondropped_processed = 1 :=
  dropped_plus_nondropped_eq_total 1 c6State
    (by
      have h1 : PoolStep 1 initPool ⟨[false], [], 0, 0, 0, 0, false⟩ :=
        PoolStep.enqueue initPool false
      have h2 : PoolStep 1 ⟨[false], [], 0, 0, 0, 0, false⟩
          ⟨[], [false], 1, 0, 0, 0, false⟩ :=
        PoolStep.pop _ false [] rfl (by decide)
      have h3 : PoolStep 1 ⟨[], [false], 1, 0, 0, 0, false⟩ c6State :=
        PoolStep.process _ false [] [] rfl
      exact ((Relation.ReflTransGen.single h1).tail h2).tail h3)
    rfl

/-- C7 counterexample: with `frames_to_process = 1` the pool state
`c7State` is reachable, has all frames recorded while the comparison
queue still holds an item, yet `CompareFrames` exits instead of popping
and processing it. -/
theorem worker_exit_nonempty_queue_cex :
    PoolReachable 1 c7State ∧ c7State.comparisons ≠ [] ∧
    compareFrames 1 c7State = (WorkerAction.exit, c7State) := by
  refine ⟨?_, by decide, by decide⟩
  have h1 : PoolStep 1 initPool ⟨[false], [], 0, 0, 0, 0, false⟩ :=
    PoolStep.enqueue initPool false
  have h2 : PoolStep 1 ⟨[false], [], 0, 0, 0, 0, false⟩
      ⟨[false, false], [], 0, 0, 0, 0, false⟩ :=
    PoolStep.enqueue _ false
  have h3 : PoolStep 1 ⟨[false, false], [], 0, 0, 0, 0, false⟩
      ⟨[false], [false], 1, 0, 0, 0, false⟩ :=
    PoolStep.pop _ false [false] rfl (by decide)
  have h4 : PoolStep 1 ⟨[false], [false], 1, 0, 0, 0, false⟩ c7State :=
    PoolStep.process _ false [] [] rfl
  exact (((Relation.ReflTransGen.single h1).tail h2).tail h3).tail h4

/-- C7 amended: a worker that observes `AllFramesRecorded()` exits
immediately even when the comparison queue is non-empty; the recorded
counter counts pops, so once it reaches the budget the remaining queued
items are deliberately left unprocessed. -/
theorem worker_exits_when_all_recorded (total : Nat) (s : PoolState)
    (h : s.frames_recorded = total) :
    compareFrames total s = (WorkerAction.exit, s) := by
  simp [compareFrames, h]

/-- Witness for the amended C7. -/
theorem worker_exits_when_all_recorded_witness :
    compareFrames 3 ⟨[true], [], 3, 2, 1, 1, true⟩ =
      (WorkerAction.exit, ⟨[true], [], 3, 2, 1, 1, true⟩) :=
  worker_exits_when_all_recorded 3 ⟨[true], [], 3, 2, 1, 1, true⟩ rfl

/-- C8 counterexample: with `frames_to_process = 0` a worker's first
`CompareFrames` pass exits at once without signalling done, and `Wait`
then reads `frames_processed = 0` on two consecutive timeout ticks and
fails with "analyzer stalled" instead of returning successfully. -/
theorem zero_frames_stall_cex :
    compareFrames 0 initPool = (WorkerAction.exit, initPool) ∧
    initPool.done = false ∧
    waitLoop (-1) [WaitObs.timeout 0, WaitObs.timeout 0] = WaitOutcome.stalled := by
  refine ⟨by decide, rfl, by decide⟩

/-- C8 amended: when `frames_to_process = 0` every reachable pool state
has `done = false` and `frames_processed = 0` (no worker ever signals
the done event), `CompareFrames` exits immediately, and the main
thread's `Wait` loop fails with "analyzer stalled" on its second timeout
tick; the run fails rather than completing. -/
theorem zero_frames_never_done (s : PoolState) (h : PoolReachable 0 s)
    (rest : List WaitObs) :
    s.done = false ∧ s.frames_processed = 0 ∧
    compareFrames 0 s = (WorkerAction.exit, s) ∧
    waitLoop (-1) (WaitObs.timeout 0 :: WaitObs.timeout 0 :: rest) =
      WaitOutcome.stalled := by
  obtain ⟨h1, h2, h3, h4⟩ := poolInv_reachable h
  have hrec : s.frames_recorded = 0 := Nat.le_zero.mp h1
  have hproc : s.frames_processed = 0 := by omega
  have hdone : s.done = false := by
    rcases hb : s.done
    · rfl
    · exact absurd (h4.mp hb).1 (by omega)
  exact ⟨hdone, hproc, by simp [compareFrames, hrec], rfl⟩

/-- Witness for the amended C8. -/
theorem zero_frames_never_done_witness :
    initPool.done = false ∧ initPool.frames_processed = 0 ∧
    compareFrames 0 initPool = (WorkerAction.exit, initPool) ∧
    waitLoop (-1) (WaitObs.timeout 0 :: WaitObs.timeout 0 :: []) =
      WaitOutcome.stalled :=
  zero_frames_never_done initPool Relation.ReflTransGen.refl []

/-- C9: the `Wait` loop's first timeout tick only records the reading;
every later timeout tick fails ("analyzer stalled") unless the reading
strictly increased; hence a run whose `frames_processed` reading repeats
on two consecutive timeout ticks stalls within those two ticks, and a
signalled done event ends the loop successfully. -/
theorem wait_stall_detection :
    (∀ (p : Int) (rest : List WaitObs),
      waitLoop (-1) (WaitObs.timeout p :: rest) = waitLoop p rest) ∧
    (∀ (last p : Int) (rest : List WaitObs), 0 ≤ last →
      waitLoop last (WaitObs.timeout p :: rest) =
        if last < p then waitLoop p rest else WaitOutcome.stalled) ∧
    (∀ (last v : Int) (rest : List WaitObs), 0 ≤ v →
      waitLoop last (WaitObs.timeout v :: WaitObs.timeout v :: rest) =
        WaitOutcome.stalled) ∧
    (∀ (last : Int) (rest : List WaitObs),
      waitLoop last (WaitObs.signaled :: rest) = WaitOutcome.success) := by
  have step : ∀ (l p : Int) (r : List WaitObs),
      waitLoop l (WaitObs.timeout p :: r) =
        if l = -1 then waitLoop p r
        else if l < p then waitLoop p r else WaitOutcome.stalled :=
    fun l p r => rfl
  refine ⟨fun p rest => ?_, fun last p rest h => ?_, fun last v rest hv => ?_,
    fun last rest => rfl⟩
  · rw [step, if_pos rfl]
  · rw [step, if_neg (by omega)]
  · simp only [step]
    split_ifs <;> first | rfl | omega


/-- Witness for C9. -/
theorem wait_stall_detection_witness :
    waitLoop (-1) [WaitObs.timeout 3] = waitLoop 3 [] ∧
    waitLoop 3 [WaitObs.timeout 3] =
      (if (3:Int) < 3 then waitLoop 3 [] else WaitOutcome.stalled) ∧
    waitLoop 7 [WaitObs.timeout 5, WaitObs.timeout 5] = WaitOutcome.stalled ∧
    waitLoop (-1) [WaitObs.signaled] = WaitOutcome.success :=
  ⟨wait_stall_detection.1 3 [], wait_stall_detection.2.1 3 3 [] (by norm_num),
   wait_stall_detection.2.2.1 7 5 [] (by norm_num),
   wait_stall_detection.2.2.2 (-1) []⟩

/-- C5: the constructor's comparison-thread count equals the spec
formula `max(1, min(8, cpu_cores - 4))` for every `cpu_cores ≥ 1`; in
particular at most 4 cores yield exactly one worker and 13 or more cores
yield exactly eight. -/
theorem comparison_thread_count (num_cores : Nat) (h : 1 ≤ num_cores) :
    (numComparisonThreads num_cores : Int) = specWorkerCount num_cores ∧
    (num_cores ≤ 4 → numComparisonThreads num_cores = 1) ∧
    (13 ≤ num_cores → numComparisonThreads num_cores = 8) := by
  unfold numComparisonThreads specWorkerCount
  refine ⟨?_, fun h4 => ?_, fun h13 => ?_⟩ <;> split_ifs <;> omega

/-- Witness for C5: a 16-core machine gets 8 workers. -/
theorem comparison_thread_count_witness :
    (numComparisonThreads 16 : Int) = specWorkerCount 16 ∧
    (16 ≤ 4 → numComparisonThreads 16 = 1) ∧
    (13 ≤ 16 → numComparisonThreads 16 = 8) :=
  comparison_thread_count 16 (by decide)

/-- C10: `SendRtcp` forwards the packet unmodified to the transport,
returns the transport's result, and leaves every piece of analyzer state
(capture queue, send/recv time maps, `first_send_frame`, delta, the
comparison queue, all counters and Statistics) unchanged. -/
theorem sendRtcp_state_unchanged (transport : Packet → Bool)
    (s : AnalyzerState) (packet : Packet) :
    (sendRtcp transport s packet).1.capture.frames = s.capture.frames ∧
    (sendRtcp transport s packet).1.capture.send_times = s.capture.send_times ∧
    (sendRtcp transport s packet).1.capture.recv_times = s.capture.recv_times ∧
    (sendRtcp transport s packet).1.capture.first_send_frame = s.capture.first_send_frame ∧
    (sendRtcp transport s packet).1.capture.rtp_timestamp_delta = s.capture.rtp_timestamp_delta ∧
    (sendRtcp transport s packet).1.capture.last_rendered_frame = s.capture.last_rendered_frame ∧
    (sendRtcp transport s packet).1.capture.comparisons = s.capture.comparisons ∧
    (sendRtcp transport s packet).1.pool = s.pool ∧
    (sendRtcp transport s packet).1.stats = s.stats ∧
    (sendRtcp transport s packet).2 = transport packet :=
  ⟨rfl, rfl, rfl, rfl, rfl, rfl, rfl, rfl, rfl, rfl⟩

/-- C1: when `RenderFrame` succeeds, each strictly-smaller front element
of the capture queue is promoted, in order, as a dropped comparison
paired with the previous `last_rendered_frame_` and popped; the element
then at the front carries rtp timestamp exactly
`send_ts = rendered.rtp_ts - delta` (the fatal assertion otherwise is
modelled by `renderFrame` returning `none`), is popped and enqueued as
the single non-dropped comparison; `last_rendered_frame_` becomes the
rendered frame; and every newly enqueued non-dropped comparison
satisfies `reference.rtp_ts = rendered.rtp_ts - delta` (uint32). -/
theorem renderFrame_pairing (s : CaptureState) (f : VideoFrame) (t : Int)
    (s' : CaptureState) (h : renderFrame s f t = some s') :
    s'.last_rendered_frame = f ∧
    (∃ (cs : List FrameComparison) (c : FrameComparison),
      s'.comparisons = s.comparisons ++ cs ++ [c] ∧
      s.frames = cs.map (fun d => d.reference) ++ c.reference :: s'.frames ∧
      (∀ d ∈ cs, d.dropped = true ∧ d.render = s.last_rendered_frame ∧
        d.reference.timestamp < sub32 f.timestamp s.rtp_timestamp_delta) ∧
      c.dropped = false ∧ c.render = f ∧
      c.reference.timestamp = sub32 f.timestamp s.rtp_timestamp_delta ∧
      (∀ e ∈ cs ++ [c], e.dropped = false →
        e.reference.timestamp = sub32 e.render.timestamp s.rtp_timestamp_delta)) := by
  obtain ⟨cs, h1, h2, h3, h4, h5, h6⟩ :=
    renderDrain_spec (sub32 f.timestamp s.rtp_timestamp_delta)
      s.last_rendered_frame t s.frames s
  simp only [renderFrame] at h
  split at h
  · exact Option.noConfusion h
  · rename_i reference rest hrem
    split at h
    · exact Option.noConfusion h
    · rename_i hz
      split at h
      · rename_i heq2
        have hs' := Option.some.inj h
        subst hs'
        rw [hrem] at h2
        refine ⟨rfl, cs,
          ⟨reference, f, false,
            mapLookupD (renderDrain (sub32 f.timestamp s.rtp_timestamp_delta)
              s.last_rendered_frame t s.frames s).1.send_times reference.timestamp,
            mapLookupD (renderDrain (sub32 f.timestamp s.rtp_timestamp_delta)
              s.last_rendered_frame t s.frames s).1.recv_times reference.timestamp,
            t⟩, ?_, ?_, h3, rfl, rfl, heq2, ?_⟩
        · dsimp only [addFrameComparison]
          rw [h1]
        · exact h2
        · intro e he hef
          rcases List.mem_append.mp he with he | he
          · exact absurd (h3 e he).1 (by simp [hef])
          · have he' := List.mem_singleton.mp he
            subst he'
            exact heq2
      · exact Option.noConfusion h

/-- Witness for C1: a two-frame capture queue with delta 2 and a
rendered frame at timestamp 14; the ts-10 frame is dropped, the ts-12
frame is paired. -/
theorem renderFrame_pairing_witness :
    c1Result.last_rendered_frame = c1Rendered ∧
    (∃ (cs : List FrameComparison) (c : FrameComparison),
      c1Result.comparisons = c1State.comparisons ++ cs ++ [c] ∧
      c1State.frames = cs.map (fun d => d.reference) ++ c.reference :: c1Result.frames ∧
      (∀ d ∈ cs, d.dropped = true ∧ d.render = c1State.last_rendered_frame ∧
        d.reference.timestamp < sub32 c1Rendered.timestamp c1State.rtp_timestamp_delta) ∧
      c.dropped = false ∧ c.render = c1Rendered ∧
      c.reference.timestamp = sub32 c1Rendered.timestamp c1State.rtp_timestamp_delta ∧
      (∀ e ∈ cs ++ [c], e.dropped = false →
        e.reference.timestamp = sub32 e.render.timestamp c1State.rtp_timestamp_delta)) :=
  renderFrame_pairing c1State c1Rendered 50 c1Result (by decide)

/-- C2 counterexample: the delta computed on the first outgoing packet
can itself be `0` (when that packet's rtp timestamp equals the first
captured frame's), which is indistinguishable from the unset sentinel; a
later capture then re-seeds `first_send_frame_` and a later `SendRtp`
recomputes the delta to a different value --- so the delta is not
established exactly once. -/
theorem sendRtp_delta_recomputed_cex :
    c2AfterFirstSend.rtp_timestamp_delta = 0 ∧
    c2AfterFirstSend.first_send_frame = zeroFrame ∧
    c2AfterSecondSend.rtp_timestamp_delta = 200 ∧
    c2AfterSecondSend.rtp_timestamp_delta ≠ c2AfterFirstSend.rtp_timestamp_delta := by
  refine ⟨?_, ?_, ?_, ?_⟩ <;> decide

/-- C2 amended: `SendRtp` (re)computes the delta on every call that
observes `rtp_timestamp_delta_ == 0` (zero doubles as the unset
sentinel), as `pkt.rtp_ts - first_send_frame.rtp_ts`, clearing
`first_send_frame_`; a call observing a nonzero delta never changes it;
and every recorded send (and recv) timestamp is normalized by
subtracting the current delta. -/
theorem sendRtp_delta_sentinel (s : CaptureState) (header_ts : Nat) (now : Int) :
    (s.rtp_timestamp_delta ≠ 0 →
      sendRtp s header_ts now =
        { s with send_times :=
            mapInsert s.send_times (sub32 header_ts s.rtp_timestamp_delta) now }) ∧
    (s.rtp_timestamp_delta = 0 →
      sendRtp s header_ts now =
        { s with
          rtp_timestamp_delta := sub32 header_ts s.first_send_frame.timestamp
          first_send_frame := zeroFrame
          send_times := mapInsert s.send_times (sub32 header_ts (sub32 header_ts s.first_send_frame.timestamp)) now }) ∧
    deliverPacket s header_ts now =
      { s with recv_times :=
          mapInsert s.recv_times (sub32 header_ts s.rtp_timestamp_delta) now } := by
  refine ⟨fun h => ?_, fun h => ?_, rfl⟩
  · simp only [sendRtp]
    rw [if_neg h]
  · simp only [sendRtp]
    rw [if_pos h]

/-- Witness for the amended C2: one call with an established (nonzero)
delta, one call with the sentinel. -/
theorem sendRtp_delta_sentinel_witness :
    (sendRtp c2AfterSecondSend 300 7 =
      { c2AfterSecondSend with
        send_times := mapInsert c2AfterSecondSend.send_times (sub32 300 c2AfterSecondSend.rtp_timestamp_delta) 7 }) ∧
    (sendRtp initCapture 300 7 =
      { initCapture with
        rtp_timestamp_delta := sub32 300 initCapture.first_send_frame.timestamp
        first_send_frame := zeroFrame
        send_times := mapInsert initCapture.send_times (sub32 300 (sub32 300 initCapture.first_send_frame.timestamp)) 7 }) :=
  ⟨(sendRtp_delta_sentinel c2AfterSecondSend 300 7).1 (by decide),
   (sendRtp_delta_sentinel initCapture 300 7).2.1 rfl⟩

/-- C3 counterexample: with both time maps missing the reference's key,
`AddFrameComparison` builds the comparison with the `operator[]`
defaults `0`, and `PerformFrameComparison` still adds the sender and
receiver timing samples (computed from those zeros) --- the timing
samples are not skipped --- alongside the PSNR/SSIM samples. -/
theorem missing_times_sample_added_cex :
    mapFind initCapture.send_times c3Ref.timestamp = none ∧
    mapFind initCapture.recv_times c3Ref.timestamp = none ∧
    (addFrameComparison initCapture c3Ref c3Rnd false 7).comparisons = [c3Cmp] ∧
    initWorkerStats.sender_time_samples = [] ∧
    (performFrameComparison 10 8 c3Cmp initWorkerStats).sender_time_samples = [-3] ∧
    (performFrameComparison 10 8 c3Cmp initWorkerStats).receiver_time_samples = [7] ∧
    (performFrameComparison 10 8 c3Cmp initWorkerStats).psnr_samples = [10] ∧
    (performFrameComparison 10 8 c3Cmp initWorkerStats).ssim_samples = [8] := by
  decide

/-- C3 amended: when the `send_times`/`recv_times` entry is absent the
map read yields the default-constructed `0`, so the comparison carries
send/recv time `0` and the timing samples are still added (as
`0 - input_time` and `render_time - 0`) together with the PSNR and SSIM
samples; no sample is skipped. -/
theorem missing_times_default_zero (s : CaptureState)
    (reference render : VideoFrame) (t psnr ssim : Int) (w : WorkerStats)
    (hs : mapFind s.send_times reference.timestamp = none)
    (hr : mapFind s.recv_times reference.timestamp = none) :
    ∃ c : FrameComparison,
      (addFrameComparison s reference render false t).comparisons =
        s.comparisons ++ [c] ∧
      c.send_time_ms = 0 ∧ c.recv_time_ms = 0 ∧
      (performFrameComparison psnr ssim c w).psnr_samples =
        w.psnr_samples ++ [psnr] ∧
      (performFrameComparison psnr ssim c w).ssim_samples =
        w.ssim_samples ++ [ssim] ∧
      (performFrameComparison psnr ssim c w).sender_time_samples =
        w.sender_time_samples ++ [0 - reference.ntp_time_ms] ∧
      (performFrameComparison psnr ssim c w).receiver_time_samples =
        w.receiver_time_samples ++ [t - 0] := by
  refine ⟨⟨reference, render, false, 0, 0, t⟩, ?_, rfl, rfl, ?_, ?_, ?_, ?_⟩
  · simp [addFrameComparison, mapLookupD_of_find_none hs, mapLookupD_of_find_none hr]
  all_goals
    rcases eq_or_ne w.last_render_time 0 with hlr | hlr <;>
      simp [performFrameComparison, hlr]

/-- Witness for the amended C3. -/
theorem missing_times_default_zero_witness :
    ∃ c : FrameComparison,
      (addFrameComparison initCapture ⟨6, 4, false⟩ ⟨8, 2, false⟩ false 9).comparisons =
        initCapture.comparisons ++ [c] ∧
      c.send_time_ms = 0 ∧ c.recv_time_ms = 0 ∧
      (performFrameComparison 11 12 c initWorkerStats).psnr_samples =
        initWorkerStats.psnr_samples ++ [11] ∧
      (performFrameComparison 11 12 c initWorkerStats).ssim_samples =
        initWorkerStats.ssim_samples ++ [12] ∧
      (performFrameComparison 11 12 c initWorkerStats).sender_time_samples =
        initWorkerStats.sender_time_samples ++ [0 - (⟨6, 4, false⟩ : VideoFrame).ntp_time_ms] ∧
      (performFrameComparison 11 12 c initWorkerStats).receiver_time_samples =
        initWorkerStats.receiver_time_samples ++ [9 - 0] :=
  missing_times_default_zero initCapture ⟨6, 4, false⟩ ⟨8, 2, false⟩ 9 11 12
    initWorkerStats rfl rfl

end FullStack

